import Mathlib

/-!
Shallow embedding of the pki-monitor-py probe engine
(`pki_checker.py`, `ocsp_checker.py`, `ldap_checker.py`, `pki_monitor.py`).

Each checker function of the Python source is translated into a pure Lean
function.  Interaction with the outside world (an HTTP client, a TCP
connect, a spawned `openssl`/`ldapsearch` process, the wall clock, the
file system) is made explicit: every probe takes the outcome of its
external calls as arguments and returns the result record the Python
code builds from that outcome.  Durations measured with `time.time()`
are passed in as natural numbers.
-/

namespace PKIMon

/-- Result record: the dict every checker returns, with the keys used by
`PKIMonitor._log_result` (`filepath_or_note` is absent from the HTTP/OCSP
dicts and defaults to the empty string, exactly as `result.get(…, '')`
yields when the CSV row is written). -/
structure Record where
  timestamp : String
  type : String
  url_or_host : String
  status : String
  http_code_or_port : String
  ms : String
  filepath_or_note : String := ""
  sha256_or_note : String
  note : String
deriving Repr, DecidableEq

/-- Outcome of one `urllib.request.urlopen` call.
`resp code contentType` : the call returned a response object
(`getcode() = code`, `Content-Type` header = `contentType`);
`httpError code msg` : the call raised `HTTPError(code)` with
`str(e) = msg`; `netError msg` : the call raised `URLError`/`OSError`
with `str(e) = msg`. -/
inductive HttpOutcome where
  | resp (code : Nat) (contentType : String)
  | httpError (code : Nat) (msg : String)
  | netError (msg : String)
deriving Repr, DecidableEq

/-- The `urllib` contract: `urlopen` returns normally only for 2xx status
codes and raises `HTTPError` for codes it does not handle itself
(4xx/5xx, and 3xx it cannot redirect).  Outcomes violating this never
occur when the probes run against a real HTTP client. -/
def HttpOutcome.wf : HttpOutcome → Bool
  | .resp code _ => 200 ≤ code && code ≤ 299
  | .httpError code _ => 300 ≤ code
  | .netError _ => true

/-- The HTTP status code delivered by the server in this outcome, if any
(a normal response carries `getcode()`, an `HTTPError` carries `e.code`;
a transport-level error delivers none). -/
def HttpOutcome.obtainedCode : HttpOutcome → Option Nat
  | .resp code _ => some code
  | .httpError code _ => some code
  | .netError _ => none

/-- Instrumented result of an availability check: the record the Python
function returns, together with whether the ranged-GET fallback was
issued and which HTTP code the final request of the probe obtained. -/
structure AccessCheck where
  record : Record
  usedRangedGet : Bool
  finalCode : Option Nat
deriving Repr, DecidableEq

/-- `PKIChecker._check_url_accessibility` (pki_checker.py lines 106-187).
`head` is the outcome of the HEAD request, `get` the outcome of the
`Range: bytes=0-0` GET (consulted only on the fallback path), `d` the
measured elapsed milliseconds at the point a record is returned. -/
def check_url_accessibility (timestamp url fileType : String)
    (head get : HttpOutcome) (d : Nat) : AccessCheck :=
  match head with
  | .resp code contentType =>
      { record := { timestamp := timestamp, type := fileType ++ "_check",
                    url_or_host := url,
                    status := if code = 200 ∨ code = 206 then "ok" else "fail",
                    http_code_or_port := toString code, ms := toString d,
                    sha256_or_note := "",
                    note := "Content-Type: " ++ contentType },
        usedRangedGet := false, finalCode := some code }
  | .httpError code msg =>
      if code = 403 ∨ code = 405 then
        -- HEAD blocked: fall back to GET of the first byte
        match get with
        | .resp gcode gct =>
            { record := { timestamp := timestamp, type := fileType ++ "_check",
                          url_or_host := url,
                          status := if gcode = 200 ∨ gcode = 206 then "ok" else "fail",
                          http_code_or_port := toString gcode, ms := toString d,
                          sha256_or_note := "",
                          note := "Content-Type: " ++ gct },
              usedRangedGet := true, finalCode := some gcode }
        | .httpError gcode gmsg =>
            { record := { timestamp := timestamp, type := fileType ++ "_check",
                          url_or_host := url, status := "fail",
                          http_code_or_port := "000", ms := toString d,
                          sha256_or_note := "", note := gmsg },
              usedRangedGet := true, finalCode := some gcode }
        | .netError gmsg =>
            { record := { timestamp := timestamp, type := fileType ++ "_check",
                          url_or_host := url, status := "fail",
                          http_code_or_port := "000", ms := toString d,
                          sha256_or_note := "", note := gmsg },
              usedRangedGet := true, finalCode := none }
      else
        { record := { timestamp := timestamp, type := fileType ++ "_check",
                      url_or_host := url, status := "fail",
                      http_code_or_port := "000", ms := toString d,
                      sha256_or_note := "", note := msg },
          usedRangedGet := false, finalCode := some code }
  | .netError msg =>
      { record := { timestamp := timestamp, type := fileType ++ "_check",
                    url_or_host := url, status := "fail",
                    http_code_or_port := "000", ms := toString d,
                    sha256_or_note := "", note := msg },
        usedRangedGet := false, finalCode := none }

/-- `OCSPChecker._check_ocsp_http` (ocsp_checker.py lines 47-126): same
HEAD → ranged-GET fallback, record kind `ocsp_http_check`, empty note on
the response paths. -/
def check_ocsp_http (timestamp url : String)
    (head get : HttpOutcome) (d : Nat) : AccessCheck :=
  match head with
  | .resp code _ =>
      { record := { timestamp := timestamp, type := "ocsp_http_check",
                    url_or_host := url,
                    status := if code = 200 ∨ code = 206 then "ok" else "fail",
                    http_code_or_port := toString code, ms := toString d,
                    sha256_or_note := "", note := "" },
        usedRangedGet := false, finalCode := some code }
  | .httpError code msg =>
      if code = 403 ∨ code = 405 then
        match get with
        | .resp gcode _ =>
            { record := { timestamp := timestamp, type := "ocsp_http_check",
                          url_or_host := url,
                          status := if gcode = 200 ∨ gcode = 206 then "ok" else "fail",
                          http_code_or_port := toString gcode, ms := toString d,
                          sha256_or_note := "", note := "" },
              usedRangedGet := true, finalCode := some gcode }
        | .httpError gcode gmsg =>
            { record := { timestamp := timestamp, type := "ocsp_http_check",
                          url_or_host := url, status := "fail",
                          http_code_or_port := "000", ms := toString d,
                          sha256_or_note := "", note := gmsg },
              usedRangedGet := true, finalCode := some gcode }
        | .netError gmsg =>
            { record := { timestamp := timestamp, type := "ocsp_http_check",
                          url_or_host := url, status := "fail",
                          http_code_or_port := "000", ms := toString d,
                          sha256_or_note := "", note := gmsg },
              usedRangedGet := true, finalCode := none }
      else
        { record := { timestamp := timestamp, type := "ocsp_http_check",
                      url_or_host := url, status := "fail",
                      http_code_or_port := "000", ms := toString d,
                      sha256_or_note := "", note := msg },
          usedRangedGet := false, finalCode := some code }
  | .netError msg =>
      { record := { timestamp := timestamp, type := "ocsp_http_check",
                    url_or_host := url, status := "fail",
                    http_code_or_port := "000", ms := toString d,
                    sha256_or_note := "", note := msg },
        usedRangedGet := false, finalCode := none }

/-- Outcome of the full-download transfer in
`PKIChecker._download_full_file`.  The Python code first calls
`urlopen` (which may raise before any file exists), then executes
`open(filepath, 'wb')` — creating the output file under its final name —
and only then reads the body and writes it:
`connectError msg` : `urlopen` raised, no file was created;
`readError msg` : `response.read()` or the write raised after the file
was opened, so a truncated (possibly empty) file remains;
`writeOk sha256` : the body was written completely and hashed. -/
inductive TransferOutcome where
  | connectError (msg : String)
  | readError (msg : String)
  | writeOk (sha256 : String)
deriving Repr, DecidableEq

/-- `PKIChecker._download_full_file` (pki_checker.py lines 189-246),
instrumented with the set of file names present in the output directory
(`fs`).  `timestampStr` is `datetime.utcnow().strftime("%Y%m%dT%H%M%SZ")`
and `baseName` is `os.path.basename(urlparse(url).path)`; the function
reproduces the `f"{timestamp_str}-{base_name}"` naming, the empty-basename
guard, and the record built on each path.  Returns the record and the
directory contents afterwards. -/
def download_full_file (timestamp url fileType : String)
    (timestampStr baseName : String) (outcome : TransferOutcome)
    (d : Nat) (fs : List String) : Record × List String :=
  let base := if baseName = "" then fileType ++ "_file" else baseName
  let filename := timestampStr ++ "-" ++ base
  match outcome with
  | .writeOk sha256 =>
      ({ timestamp := timestamp, type := fileType ++ "_download",
         url_or_host := url, status := "ok", http_code_or_port := "200",
         ms := toString d, sha256_or_note := sha256, note := "" },
       filename :: fs)
  | .readError msg =>
      ({ timestamp := timestamp, type := fileType ++ "_download",
         url_or_host := url, status := "fail", http_code_or_port := "000",
         ms := toString d, sha256_or_note := "", note := msg },
       filename :: fs)
  | .connectError msg =>
      ({ timestamp := timestamp, type := fileType ++ "_download",
         url_or_host := url, status := "fail", http_code_or_port := "000",
         ms := toString d, sha256_or_note := "", note := msg },
       fs)

/-- The synthetic download record `PKIChecker._download_file` appends
when the availability check did not return `ok`
(pki_checker.py lines 93-102). -/
def notAccessibleRecord (timestamp url fileType : String) : Record :=
  { timestamp := timestamp, type := fileType ++ "_download",
    url_or_host := url, status := "fail", http_code_or_port := "000",
    ms := "0", sha256_or_note := "", note := "URL not accessible" }

/-- `PKIChecker._download_file` (pki_checker.py lines 76-104): run the
availability check, then either the full download (when the check said
`ok`) or the synthetic failure record.  Returns the record list, whether
a download was attempted, and the output-directory contents afterwards. -/
def download_file (timestamp url fileType : String)
    (head get : HttpOutcome) (dCheck : Nat)
    (timestampStr baseName : String) (outcome : TransferOutcome)
    (dDl : Nat) (fs : List String) : List Record × Bool × List String :=
  let check := check_url_accessibility timestamp url fileType head get dCheck
  if check.record.status = "ok" then
    let dl := download_full_file timestamp url fileType timestampStr baseName outcome dDl fs
    ([check.record, dl.1], true, dl.2)
  else
    ([check.record, notAccessibleRecord timestamp url fileType], false, fs)

/-- What one checker category delivered to `run_all_checks`: either the
record list its `run_checks()` returned, or the message of the exception
it raised. -/
def CategoryRun := Except String (List Record)

/-- The records a category contributed to the log: all of them when its
`run_checks()` returned, none when it raised (the `for … _log_result`
loop is never entered). -/
def recordsOf : Except String (List Record) → List Record
  | .ok rs => rs
  | .error _ => []

/-- Whether a category's `run_checks()` raised an uncaught exception. -/
def raised : Except String (List Record) → Bool
  | .ok _ => false
  | .error _ => true

/-- `PKIMonitor.run_all_checks` (pki_monitor.py lines 71-113): run the
three categories in order; a raising category flips `success` to `False`
and logs nothing, a returning category logs every record; the remaining
categories run either way.  Returns the final `success` flag and the
logged records in order. -/
def run_all_checks (pki ocsp ldap : Except String (List Record)) :
    Bool × List Record :=
  let success := true
  let logged : List Record := []
  let step1 : Bool × List Record :=
    match pki with
    | .ok rs => (success, logged ++ rs)
    | .error _ => (false, logged)
  let step2 : Bool × List Record :=
    match ocsp with
    | .ok rs => (step1.1, step1.2 ++ rs)
    | .error _ => (false, step1.2)
  match ldap with
  | .ok rs => (step2.1, step2.2 ++ rs)
  | .error _ => (false, step2.2)

/-- Split a character list at every occurrence of the character `sep`:
the semantics of Python's `s.split(sep)` for a one-character separator
(`'\n'` in the checkers). -/
def splitOnChar (sep : Char) : List Char → List (List Char)
  | [] => [[]]
  | c :: rest =>
      if c = sep then [] :: splitOnChar sep rest
      else
        match splitOnChar sep rest with
        | p :: ps => (c :: p) :: ps
        | [] => [[c]]

/-- Python's `s.split('\n')` as a list of strings. -/
def pyLines (s : String) : List String := (splitOnChar '\n' s.data).map String.mk

/-- Whether the character list `sep` occurs as a contiguous sublist of
`s`: Python's `sep in s` for a non-empty `sep`. -/
def containsSub (sep : List Char) : List Char → Bool
  | [] => sep.isEmpty
  | c :: rest => sep.isPrefixOf (c :: rest) || containsSub sep rest

/-- The characters before the first occurrence of `sep` (the whole list
when `sep` does not occur). -/
def beforeFirst (sep : List Char) : List Char → List Char
  | [] => []
  | c :: rest =>
      if sep.isPrefixOf (c :: rest) then [] else c :: beforeFirst sep rest

/-- The characters after the first occurrence of `sep`, when it occurs. -/
def afterFirst (sep : List Char) : List Char → Option (List Char)
  | [] => none
  | c :: rest =>
      if sep.isPrefixOf (c :: rest) then some (List.drop sep.length (c :: rest))
      else afterFirst sep rest

/-- The whitespace characters removed by Python's `str.strip()` (the
ASCII ones; the checkers only strip spaces around OCSP field values). -/
def pyIsSpace (c : Char) : Bool :=
  c = ' ' || c = '\t' || c = '\n' || c = '\r' || c = '\x0b' || c = '\x0c'

/-- Python's `s.strip()`. -/
def pyStrip (s : String) : String :=
  String.mk (((s.data.dropWhile pyIsSpace).reverse.dropWhile pyIsSpace).reverse)

/-- Python's `s.upper()` for the ASCII protocol tags `ldap`/`ldaps`. -/
def pyUpper (s : String) : String := String.mk (s.data.map Char.toUpper)

/-- Python's `sep in line` test for the non-empty label separators used
by `OCSPChecker._parse_ocsp_response`. -/
def pyContains (line sep : String) : Bool := containsSub sep.data line.data

/-- Python's `line.split(sep)[1].strip()`: the text between the first
occurrence of `sep` and the following occurrence (or the end of the
line), stripped of surrounding whitespace.  Used under a `sep in line`
guard, so the element at index 1 exists. -/
def pyAfter (line sep : String) : String :=
  match afterFirst sep.data line.data with
  | some rest => pyStrip (String.mk (beforeFirst sep.data rest))
  | none => ""

/-- Outcome of the `sock.connect_ex` call in `LDAPChecker._check_port`:
`retCode r d` : `connect_ex` returned `r` after `d` measured
milliseconds (`0` on success; a nonzero errno such as `ECONNREFUSED` on
refusal or `EWOULDBLOCK` on timeout, since `connect_ex` reports the
C-level connect error instead of raising); `exn msg d` : socket creation
or name resolution raised with `str(e) = msg`. -/
inductive PortOutcome where
  | retCode (r : Nat) (d : Nat)
  | exn (msg : String) (d : Nat)
deriving Repr, DecidableEq

/-- `LDAPChecker._check_port` (ldap_checker.py lines 39-91).  On
`connect_ex = 0` the measured duration is kept; on a nonzero return the
code overwrites `duration_ms` with `0`; on an exception the measured
duration is kept and the message becomes the note. -/
def check_port (timestamp host : String) (port : Nat)
    (outcome : PortOutcome) : Record :=
  match outcome with
  | .retCode r d =>
      if r = 0 then
        { timestamp := timestamp, type := "ldap_port", url_or_host := host,
          status := "ok", http_code_or_port := toString port,
          ms := toString d, filepath_or_note := "", sha256_or_note := "",
          note := "" }
      else
        { timestamp := timestamp, type := "ldap_port", url_or_host := host,
          status := "fail", http_code_or_port := toString port,
          ms := "0", filepath_or_note := "", sha256_or_note := "",
          note := "" }
  | .exn msg d =>
      { timestamp := timestamp, type := "ldap_port", url_or_host := host,
        status := "fail", http_code_or_port := toString port,
        ms := toString d, filepath_or_note := "", sha256_or_note := "",
        note := msg }

/-- Outcome of the spawned process (`ldapsearch` in
`LDAPChecker._check_ldap_query`, `openssl ocsp` in
`OCSPChecker.check_ocsp_by_serial`): `ran returncode stdout stderr d`
for a completed `subprocess.run`, `timeout d` for
`subprocess.TimeoutExpired`, `exn msg d` for any other exception. -/
inductive ProcOutcome where
  | ran (returncode : Nat) (stdout stderr : String) (d : Nat)
  | timeout (d : Nat)
  | exn (msg : String) (d : Nat)
deriving Repr, DecidableEq

/-- `LDAPChecker._check_ldap_query` (ldap_checker.py lines 93-195). -/
def check_ldap_query (timestamp host protocol : String)
    (outcome : ProcOutcome) : Record :=
  let url := protocol ++ "://" ++ host
  match outcome with
  | .ran returncode stdout _stderr d =>
      if returncode = 0 then
        let dnLines := (pyLines stdout).filter (fun l => "dn:".data.isPrefixOf l.data)
        let note := if dnLines.isEmpty then "empty" else "found"
        { timestamp := timestamp, type := "ldap_search", url_or_host := url,
          status := "ok", http_code_or_port := pyUpper protocol,
          ms := toString d, filepath_or_note := "", sha256_or_note := "",
          note := note }
      else
        { timestamp := timestamp, type := "ldap_search", url_or_host := url,
          status := "fail", http_code_or_port := pyUpper protocol,
          ms := toString d, filepath_or_note := "", sha256_or_note := "",
          note := "ldapsearch error: " ++ _stderr }
  | .timeout d =>
      { timestamp := timestamp, type := "ldap_search", url_or_host := url,
        status := "fail", http_code_or_port := pyUpper protocol,
        ms := toString d, filepath_or_note := "", sha256_or_note := "",
        note := "Query timeout" }
  | .exn msg d =>
      { timestamp := timestamp, type := "ldap_search", url_or_host := url,
        status := "fail", http_code_or_port := pyUpper protocol,
        ms := toString d, filepath_or_note := "", sha256_or_note := "",
        note := msg }

/-- The three mutable locals of the parsing loop in
`OCSPChecker._parse_ocsp_response`. -/
structure ParseState where
  status : Option String
  revocationTime : Option String
  revocationReason : Option String
deriving Repr, DecidableEq

/-- One iteration of the `for line in lines` loop of
`OCSPChecker._parse_ocsp_response` (ocsp_checker.py lines 285-294):
an `if`/`elif` chain keyed on substring containment, each branch
overwriting one local with the stripped text after the label. -/
def parseLine (st : ParseState) (line : String) : ParseState :=
  if pyContains line "Cert Status:" then
    { st with status := some (pyAfter line "Cert Status:") }
  else if pyContains line "Revocation Time:" then
    { st with revocationTime := some (pyAfter line "Revocation Time:") }
  else if pyContains line "Revocation Reason:" then
    { st with revocationReason := some (pyAfter line "Revocation Reason:") }
  else st

/-- Python truthiness of an optional string local (`if revocation_time:`):
`None` and the empty string are falsy. -/
def truthy : Option String → Bool
  | none => false
  | some s => s != ""

/-- `OCSPChecker._parse_ocsp_response` (ocsp_checker.py lines 277-306). -/
def parse_ocsp_response (response : String) : String :=
  let st := (pyLines response).foldl parseLine
    { status := none, revocationTime := none, revocationReason := none }
  match st.status with
  | none => "unknown"
  | some s =>
      if truthy st.revocationTime then
        let result := s ++ ", Revocation Time: " ++ st.revocationTime.getD ""
        if truthy st.revocationReason then
          result ++ ", Reason: " ++ st.revocationReason.getD ""
        else result
      else s

/-- `OCSPChecker.check_ocsp_by_serial` (ocsp_checker.py lines 155-275),
instrumented with whether the `openssl ocsp` network request was
executed.  `issuerExists` is `Path(issuer_cert).exists()`; `respSha` is
the SHA-256 the code computes over the temp file holding
`stdout + stderr` of a completed run. -/
def check_ocsp_by_serial (timestamp url issuerCert serial resultType : String)
    (issuerExists : Bool) (outcome : ProcOutcome) (respSha : String)
    (dMissing : Nat) : Record × Bool :=
  if issuerExists = false then
    ({ timestamp := timestamp, type := resultType, url_or_host := url,
       status := "fail", http_code_or_port := "000", ms := toString dMissing,
       sha256_or_note := "",
       note := "Issuer certificate not found: " ++ issuerCert }, false)
  else
    match outcome with
    | .ran returncode stdout stderr d =>
        if returncode = 0 then
          ({ timestamp := timestamp, type := resultType, url_or_host := url,
             status := "ok", http_code_or_port := "200", ms := toString d,
             sha256_or_note := respSha,
             note := parse_ocsp_response stdout ++ " (serial: " ++ serial ++ ")" },
           true)
        else
          ({ timestamp := timestamp, type := resultType, url_or_host := url,
             status := "fail", http_code_or_port := "000", ms := toString d,
             sha256_or_note := "",
             note := "OpenSSL error: " ++ stderr }, true)
    | .timeout d =>
        ({ timestamp := timestamp, type := resultType, url_or_host := url,
           status := "fail", http_code_or_port := "000", ms := toString d,
           sha256_or_note := "", note := "Request timeout" }, true)
    | .exn msg d =>
        ({ timestamp := timestamp, type := resultType, url_or_host := url,
           status := "fail", http_code_or_port := "000", ms := toString d,
           sha256_or_note := "", note := msg }, true)

/-- `OCSPChecker._check_ocsp_status` (ocsp_checker.py lines 128-153):
the self-check; returns a `fail` record without any network call when
the CA certificate is absent, and otherwise delegates to
`check_ocsp_by_serial` with the sentinel serial `0xAAA`. -/
def check_ocsp_status (timestamp url caCert : String) (caExists : Bool)
    (outcome : ProcOutcome) (respSha : String) : Record × Bool :=
  if caExists = false then
    ({ timestamp := timestamp, type := "ocsp_status", url_or_host := url,
       status := "fail", http_code_or_port := "000", ms := "0",
       sha256_or_note := "",
       note := "CA certificate not found: " ++ caCert }, false)
  else
    check_ocsp_by_serial timestamp url caCert "0xAAA" "ocsp_status"
      true outcome respSha 0

/-- C2: `run_all_checks` returns `true` exactly when no checker category
raised an uncaught exception — the statuses inside the records play no
role, so individual `fail` records never flip the flag — and a raising
category does not suppress the later categories, whose records are all
accumulated in order. -/
theorem c2_run_all_checks_category_isolation
    (pki ocsp ldap : Except String (List Record)) :
    ((run_all_checks pki ocsp ldap).1 = true ↔
      raised pki = false ∧ raised ocsp = false ∧ raised ldap = false)
    ∧ (run_all_checks pki ocsp ldap).2 =
        recordsOf pki ++ recordsOf ocsp ++ recordsOf ldap := by
  cases pki <;> cases ocsp <;> cases ldap <;>
    simp [run_all_checks, raised, recordsOf]

/-- C9: a successful TCP connect (`connect_ex` returned `0`) yields
`status=ok` with the measured latency in `duration_ms`; any nonzero
`connect_ex` return — refusal or timeout — yields `status=fail` with
`duration_ms` suppressed to `0`; in particular a refused connect on
port 389 yields `{status: fail, code_or_port: "389", duration_ms: 0}`. -/
theorem c9_check_port_duration_policy
    (timestamp host : String) (port r d : Nat) :
    ((check_port timestamp host port (.retCode 0 d)).status = "ok"
      ∧ (check_port timestamp host port (.retCode 0 d)).ms = toString d
      ∧ (check_port timestamp host port (.retCode 0 d)).http_code_or_port = toString port)
    ∧ ((check_port timestamp host port (.retCode (r + 1) d)).status = "fail"
      ∧ (check_port timestamp host port (.retCode (r + 1) d)).ms = "0"
      ∧ (check_port timestamp host port (.retCode (r + 1) d)).http_code_or_port = toString port)
    ∧ check_port "2024-01-01T00:00:00Z" "ldap.eidpki.ee" 389 (.retCode 111 7)
        = { timestamp := "2024-01-01T00:00:00Z", type := "ldap_port",
            url_or_host := "ldap.eidpki.ee", status := "fail",
            http_code_or_port := "389", ms := "0", filepath_or_note := "",
            sha256_or_note := "", note := "" } := by
  refine ⟨by simp [check_port], by simp [check_port], by decide⟩

/-- C7: the OCSP-by-serial check with a non-existent issuer certificate
path (and likewise the self-check with a missing CA certificate) returns
a `fail` record whose note names the missing path, and executes no
network call. -/
theorem c7_missing_issuer_short_circuit
    (timestamp url issuerCert serial resultType : String)
    (outcome : ProcOutcome) (respSha : String) (d : Nat)
    (caCert : String) (caOutcome : ProcOutcome) (caSha : String) :
    ((check_ocsp_by_serial timestamp url issuerCert serial resultType
        false outcome respSha d).1.status = "fail"
      ∧ (check_ocsp_by_serial timestamp url issuerCert serial resultType
          false outcome respSha d).1.note =
            "Issuer certificate not found: " ++ issuerCert
      ∧ (check_ocsp_by_serial timestamp url issuerCert serial resultType
          false outcome respSha d).2 = false)
    ∧ ((check_ocsp_status timestamp url caCert false caOutcome caSha).1.status = "fail"
      ∧ (check_ocsp_status timestamp url caCert false caOutcome caSha).1.note =
          "CA certificate not found: " ++ caCert
      ∧ (check_ocsp_status timestamp url caCert false caOutcome caSha).2 = false) := by
  refine ⟨⟨?_, ?_, ?_⟩, ?_, ?_, ?_⟩ <;> simp [check_ocsp_by_serial, check_ocsp_status]

/-- C5: contrary to the specification, a download that fails after the
transfer started does leave a truncated file under its final name: the
code opens `filepath` in `'wb'` mode before reading the body, and the
failure path returns the `fail` record without deleting the file.
Evaluated at a read error during the transfer of a CRL, the record says
`fail` yet the file named `<timestamp>-<basename>` is present in the
output directory. -/
theorem c5_failed_download_leaves_partial_file :
    (download_full_file "2024-01-01T00:00:00Z"
        "https://crl.eidpki.ee/EEGovCA2025.crl" "crl" "20240101T000000Z"
        "EEGovCA2025.crl" (.readError "The read operation timed out")
        1234 []).1.status = "fail"
    ∧ (download_full_file "2024-01-01T00:00:00Z"
        "https://crl.eidpki.ee/EEGovCA2025.crl" "crl" "20240101T000000Z"
        "EEGovCA2025.crl" (.readError "The read operation timed out")
        1234 []).2 = ["20240101T000000Z-EEGovCA2025.crl"] := by
  exact ⟨rfl, rfl⟩

/-- C3: the full download runs exactly when the availability check for
the URL returned `ok`; on a failed check no download is attempted and
the synthetic `fail` record with `code_or_port="000"` and note
`"URL not accessible"` is emitted instead, so the checker always outputs
the availability record followed by a download record. -/
theorem c3_download_only_after_ok_check
    (timestamp url fileType : String) (head get : HttpOutcome) (dCheck : Nat)
    (timestampStr baseName : String) (outcome : TransferOutcome)
    (dDl : Nat) (fs : List String) :
    ((download_file timestamp url fileType head get dCheck timestampStr
        baseName outcome dDl fs).2.1 = true ↔
      (check_url_accessibility timestamp url fileType head get dCheck).record.status = "ok")
    ∧ (download_file timestamp url fileType head get dCheck timestampStr
        baseName outcome dDl fs).1.length = 2
    ∧ (download_file timestamp url fileType head get dCheck timestampStr
        baseName outcome dDl fs).1.head? =
        some (check_url_accessibility timestamp url fileType head get dCheck).record
    ∧ ((check_url_accessibility timestamp url fileType head get dCheck).record.status ≠ "ok" →
        (download_file timestamp url fileType head get dCheck timestampStr
            baseName outcome dDl fs) =
          ([(check_url_accessibility timestamp url fileType head get dCheck).record,
            notAccessibleRecord timestamp url fileType], false, fs))
    ∧ ((check_url_accessibility timestamp url fileType head get dCheck).record.status = "ok" →
        (download_file timestamp url fileType head get dCheck timestampStr
            baseName outcome dDl fs) =
          ([(check_url_accessibility timestamp url fileType head get dCheck).record,
            (download_full_file timestamp url fileType timestampStr baseName outcome dDl fs).1],
           true,
           (download_full_file timestamp url fileType timestampStr baseName outcome dDl fs).2)) := by
  by_cases h :
      (check_url_accessibility timestamp url fileType head get dCheck).record.status = "ok" <;>
    simp [download_file, h]

/-- C3 witness: at an unreachable URL the availability check fails, the
pair of records is the check record plus the synthetic
`"URL not accessible"` record, and no download touches the directory. -/
theorem c3_download_only_after_ok_check_witness :
    download_file "2024-01-01T00:00:00Z" "https://crl.eidpki.ee/EEGovCA2025.crl"
        "crl" (.netError "urlopen error timed out") (.resp 200 "text/plain") 5
        "20240101T000000Z" "EEGovCA2025.crl" (.writeOk "ab12") 9 [] =
      ([(check_url_accessibility "2024-01-01T00:00:00Z"
          "https://crl.eidpki.ee/EEGovCA2025.crl" "crl"
          (.netError "urlopen error timed out") (.resp 200 "text/plain") 5).record,
        notAccessibleRecord "2024-01-01T00:00:00Z"
          "https://crl.eidpki.ee/EEGovCA2025.crl" "crl"], false, []) :=
  (c3_download_only_after_ok_check "2024-01-01T00:00:00Z"
      "https://crl.eidpki.ee/EEGovCA2025.crl" "crl"
      (.netError "urlopen error timed out") (.resp 200 "text/plain") 5
      "20240101T000000Z" "EEGovCA2025.crl" (.writeOk "ab12") 9 []).2.2.2.1
    (by decide)

/-- C4 counterexample: a server that answers 404 — a code outside
{200, 206} — produces a record with `code_or_port = "000"`, not
`"404"`: `urlopen` raises `HTTPError` for a 404, the HEAD handler
re-raises it (404 is not a fallback code), and the outer handler stores
`"000"`.  The numeric code is not preserved, refuting the claim. -/
theorem c4_unexpected_status_counterexample :
    (check_url_accessibility "2024-01-01T00:00:00Z"
        "https://crl.eidpki.ee/EEGovCA2025.crl" "crl"
        (.httpError 404 "HTTP Error 404: Not Found") (.resp 200 "text/plain")
        7).record.status = "fail"
    ∧ (check_url_accessibility "2024-01-01T00:00:00Z"
        "https://crl.eidpki.ee/EEGovCA2025.crl" "crl"
        (.httpError 404 "HTTP Error 404: Not Found") (.resp 200 "text/plain")
        7).record.http_code_or_port = "000"
    ∧ (check_url_accessibility "2024-01-01T00:00:00Z"
        "https://crl.eidpki.ee/EEGovCA2025.crl" "crl"
        (.httpError 404 "HTTP Error 404: Not Found") (.resp 200 "text/plain")
        7).record.http_code_or_port ≠ "404" := by
  exact ⟨rfl, rfl, by decide⟩

/-- C4 amended: the numeric code is preserved only when the HTTP client
delivers the response without raising (2xx codes such as 204, whether on
the HEAD or on the fallback GET); a code raised as `HTTPError` — any
4xx/5xx other than 403/405 answered to HEAD, which trigger the fallback
— is recorded as `status=fail` with `code_or_port="000"` and the error
text in the note, the same shape as an unreachable server. -/
theorem c4_unexpected_status_amended
    (timestamp url fileType : String) (d : Nat) :
    (∀ code contentType get, ¬(code = 200 ∨ code = 206) →
      (check_url_accessibility timestamp url fileType (.resp code contentType) get d).record.status = "fail"
      ∧ (check_url_accessibility timestamp url fileType (.resp code contentType) get d).record.http_code_or_port = toString code)
    ∧ (∀ code msg get, ¬(code = 403 ∨ code = 405) →
      (check_url_accessibility timestamp url fileType (.httpError code msg) get d).record.status = "fail"
      ∧ (check_url_accessibility timestamp url fileType (.httpError code msg) get d).record.http_code_or_port = "000"
      ∧ (check_url_accessibility timestamp url fileType (.httpError code msg) get d).record.note = msg)
    ∧ (∀ code msg gcode gct, (code = 403 ∨ code = 405) → ¬(gcode = 200 ∨ gcode = 206) →
      (check_url_accessibility timestamp url fileType (.httpError code msg) (.resp gcode gct) d).record.status = "fail"
      ∧ (check_url_accessibility timestamp url fileType (.httpError code msg) (.resp gcode gct) d).record.http_code_or_port = toString gcode)
    ∧ (∀ code msg gcode gmsg, (code = 403 ∨ code = 405) →
      (check_url_accessibility timestamp url fileType (.httpError code msg) (.httpError gcode gmsg) d).record.status = "fail"
      ∧ (check_url_accessibility timestamp url fileType (.httpError code msg) (.httpError gcode gmsg) d).record.http_code_or_port = "000")
    ∧ (∀ msg get,
      (check_url_accessibility timestamp url fileType (.netError msg) get d).record.status = "fail"
      ∧ (check_url_accessibility timestamp url fileType (.netError msg) get d).record.http_code_or_port = "000") := by
  refine ⟨?_, ?_, ?_, ?_, ?_⟩
  · intro code contentType get h
    simp [check_url_accessibility, h]
  · intro code msg get h
    simp [check_url_accessibility, h]
  · intro code msg gcode gct h hg
    simp [check_url_accessibility, h, hg]
  · intro code msg gcode gmsg h
    simp [check_url_accessibility, h]
  · intro msg get
    simp [check_url_accessibility]

/-- C4 amended witness: a 204 delivered to the HEAD request is recorded
as `fail` with its numeric code `"204"` preserved. -/
theorem c4_unexpected_status_amended_witness :
    (check_url_accessibility "2024-01-01T00:00:00Z"
        "https://crl.eidpki.ee/EEGovCA2025.crl" "crl"
        (.resp 204 "text/plain") (.resp 200 "text/plain") 7).record.status = "fail"
    ∧ (check_url_accessibility "2024-01-01T00:00:00Z"
        "https://crl.eidpki.ee/EEGovCA2025.crl" "crl"
        (.resp 204 "text/plain") (.resp 200 "text/plain") 7).record.http_code_or_port = "204" :=
  (c4_unexpected_status_amended "2024-01-01T00:00:00Z"
      "https://crl.eidpki.ee/EEGovCA2025.crl" "crl" 7).1
    204 "text/plain" (.resp 200 "text/plain") (by decide)

/-- C6 counterexample: a refused TCP connect on port 389 produces a
`fail` record with `code_or_port = "389"`, and a timed-out ldapsearch
produces a `fail` record with `code_or_port = "LDAP"` — in both cases
no HTTP code was obtained (no HTTP transaction exists in these probes),
yet the field is not `"000"`, refuting the claimed invariant for the
directory checker's records. -/
theorem c6_fail_implies_000_counterexample :
    (check_port "2024-01-01T00:00:00Z" "ldap.eidpki.ee" 389 (.retCode 111 7)).status = "fail"
    ∧ (check_port "2024-01-01T00:00:00Z" "ldap.eidpki.ee" 389 (.retCode 111 7)).http_code_or_port = "389"
    ∧ (check_port "2024-01-01T00:00:00Z" "ldap.eidpki.ee" 389 (.retCode 111 7)).http_code_or_port ≠ "000"
    ∧ (check_ldap_query "2024-01-01T00:00:00Z" "ldap.eidpki.ee" "ldap" (.timeout 10000)).status = "fail"
    ∧ (check_ldap_query "2024-01-01T00:00:00Z" "ldap.eidpki.ee" "ldap" (.timeout 10000)).http_code_or_port = "LDAP"
    ∧ (check_ldap_query "2024-01-01T00:00:00Z" "ldap.eidpki.ee" "ldap" (.timeout 10000)).http_code_or_port ≠ "000" := by
  exact ⟨rfl, by decide, by decide, rfl, by decide, by decide⟩

/-- Every `fail` record of `check_ocsp_by_serial` carries
`code_or_port = "000"` (with or without the issuer file, and on every
process outcome); the `"200"` is hardcoded on the success path only. -/
lemma check_ocsp_by_serial_fail_code
    (timestamp url issuerCert serial resultType : String) (issuerExists : Bool)
    (outcome : ProcOutcome) (respSha : String) (dm : Nat) :
    (check_ocsp_by_serial timestamp url issuerCert serial resultType
        issuerExists outcome respSha dm).1.status = "fail" →
    (check_ocsp_by_serial timestamp url issuerCert serial resultType
        issuerExists outcome respSha dm).1.http_code_or_port = "000" := by
  cases issuerExists with
  | false => intro _; rfl
  | true =>
      cases outcome with
      | ran rc out err d => by_cases h : rc = 0 <;> simp [check_ocsp_by_serial, h]
      | timeout d => intro _; rfl
      | exn msg d => intro _; rfl

/-- C6 amended: the `fail implies "000"` rule holds for every HTTP-based
checker record — a fail record carries `"000"` unless the HTTP client
delivered a numeric code, which is then preserved (the availability
checks are the only probes that ever record a delivered code on
failure; the download and OCSP-status records hardcode `"200"` on
success and `"000"` on every failure path, and the synthetic
not-accessible record is `fail`/`"000"` by construction) — while the
directory checker's records always carry the probed port number
(`ldap_port`) or the upper-cased protocol tag (`ldap_search`) in
`code_or_port`, whatever the status. -/
theorem c6_fail_implies_000_amended :
    (∀ timestamp host port outcome,
      (check_port timestamp host port outcome).http_code_or_port = toString port)
    ∧ (∀ timestamp host protocol outcome,
      (check_ldap_query timestamp host protocol outcome).http_code_or_port = pyUpper protocol)
    ∧ (∀ timestamp url fileType head get d,
      (check_url_accessibility timestamp url fileType head get d).record.status = "fail" →
        (check_url_accessibility timestamp url fileType head get d).record.http_code_or_port = "000"
        ∨ ∃ c, (check_url_accessibility timestamp url fileType head get d).finalCode = some c
            ∧ (check_url_accessibility timestamp url fileType head get d).record.http_code_or_port = toString c)
    ∧ (∀ timestamp url head get d,
      (check_ocsp_http timestamp url head get d).record.status = "fail" →
        (check_ocsp_http timestamp url head get d).record.http_code_or_port = "000"
        ∨ ∃ c, (check_ocsp_http timestamp url head get d).finalCode = some c
            ∧ (check_ocsp_http timestamp url head get d).record.http_code_or_port = toString c)
    ∧ (∀ timestamp url fileType timestampStr baseName outcome d fs,
      (download_full_file timestamp url fileType timestampStr baseName outcome d fs).1.status = "fail" →
        (download_full_file timestamp url fileType timestampStr baseName outcome d fs).1.http_code_or_port = "000")
    ∧ (∀ timestamp url fileType,
      (notAccessibleRecord timestamp url fileType).status = "fail"
      ∧ (notAccessibleRecord timestamp url fileType).http_code_or_port = "000")
    ∧ (∀ timestamp url issuerCert serial resultType issuerExists outcome respSha dm,
      (check_ocsp_by_serial timestamp url issuerCert serial resultType
          issuerExists outcome respSha dm).1.status = "fail" →
        (check_ocsp_by_serial timestamp url issuerCert serial resultType
            issuerExists outcome respSha dm).1.http_code_or_port = "000")
    ∧ (∀ timestamp url caCert caExists outcome respSha,
      (check_ocsp_status timestamp url caCert caExists outcome respSha).1.status = "fail" →
        (check_ocsp_status timestamp url caCert caExists outcome respSha).1.http_code_or_port = "000") := by
  refine ⟨?_, ?_, ?_, ?_, ?_, ?_, ?_, ?_⟩
  · intro timestamp host port outcome
    cases outcome with
    | retCode r d => by_cases h : r = 0 <;> simp [check_port, h]
    | exn msg d => simp [check_port]
  · intro timestamp host protocol outcome
    cases outcome with
    | ran rc out err d => by_cases h : rc = 0 <;> simp [check_ldap_query, h]
    | timeout d => simp [check_ldap_query]
    | exn msg d => simp [check_ldap_query]
  · intro timestamp url fileType head get d hfail
    cases head with
    | resp code ct =>
        right
        exact ⟨code, rfl, rfl⟩
    | httpError code msg =>
        by_cases h : code = 403 ∨ code = 405
        · cases get with
          | resp gcode gct =>
              right
              simp [check_url_accessibility, h]
          | httpError gcode gmsg =>
              left
              simp [check_url_accessibility, h]
          | netError gmsg =>
              left
              simp [check_url_accessibility, h]
        · left
          simp [check_url_accessibility, h]
    | netError msg =>
        left
        rfl
  · intro timestamp url head get d hfail
    cases head with
    | resp code ct =>
        right
        exact ⟨code, rfl, rfl⟩
    | httpError code msg =>
        by_cases h : code = 403 ∨ code = 405
        · cases get with
          | resp gcode gct =>
              right
              simp [check_ocsp_http, h]
          | httpError gcode gmsg =>
              left
              simp [check_ocsp_http, h]
          | netError gmsg =>
              left
              simp [check_ocsp_http, h]
        · left
          simp [check_ocsp_http, h]
    | netError msg =>
        left
        rfl
  · intro timestamp url fileType timestampStr baseName outcome d fs
    cases outcome with
    | connectError msg => intro _; rfl
    | readError msg => intro _; rfl
    | writeOk sha256 => simp [download_full_file]
  · intro timestamp url fileType
    exact ⟨rfl, rfl⟩
  · intro timestamp url issuerCert serial resultType issuerExists outcome respSha dm
    exact check_ocsp_by_serial_fail_code timestamp url issuerCert serial
      resultType issuerExists outcome respSha dm
  · intro timestamp url caCert caExists outcome respSha
    cases caExists with
    | false => intro _; rfl
    | true =>
        intro hfail
        exact check_ocsp_by_serial_fail_code timestamp url caCert "0xAAA"
          "ocsp_status" true outcome respSha 0 hfail

/-- C6 amended witness: the port-389 refusal record carries `"389"`, the
search timeout carries `"LDAP"`, an availability failure without a
delivered code carries `"000"` (for both the PKI and the OCSP probe),
a failed download carries `"000"`, the synthetic not-accessible record
is `fail`/`"000"`, and a timed-out / missing-CA OCSP status check
carries `"000"`. -/
theorem c6_fail_implies_000_amended_witness :
    (check_port "t" "ldap.eidpki.ee" 389 (.retCode 111 7)).http_code_or_port = "389"
    ∧ (check_ldap_query "t" "ldap.eidpki.ee" "ldap" (.timeout 10000)).http_code_or_port = "LDAP"
    ∧ ((check_url_accessibility "t" "u" "crl" (.netError "timed out") (.resp 200 "x") 3).record.http_code_or_port = "000"
      ∨ ∃ c, (check_url_accessibility "t" "u" "crl" (.netError "timed out") (.resp 200 "x") 3).finalCode = some c
          ∧ (check_url_accessibility "t" "u" "crl" (.netError "timed out") (.resp 200 "x") 3).record.http_code_or_port = toString c)
    ∧ ((check_ocsp_http "t" "https://ocsp.eidpki.ee" (.netError "timed out") (.resp 200 "x") 3).record.http_code_or_port = "000"
      ∨ ∃ c, (check_ocsp_http "t" "https://ocsp.eidpki.ee" (.netError "timed out") (.resp 200 "x") 3).finalCode = some c
          ∧ (check_ocsp_http "t" "https://ocsp.eidpki.ee" (.netError "timed out") (.resp 200 "x") 3).record.http_code_or_port = toString c)
    ∧ (download_full_file "t" "u" "crl" "20240101T000000Z" "EEGovCA2025.crl"
        (.readError "timed out") 9 []).1.http_code_or_port = "000"
    ∧ (notAccessibleRecord "t" "u" "crl").status = "fail"
    ∧ (notAccessibleRecord "t" "u" "crl").http_code_or_port = "000"
    ∧ (check_ocsp_by_serial "t" "https://ocsp.eidpki.ee" "./ca.crt" "0xAAA"
        "ocsp_status_by_serial" true (.timeout 5) "" 0).1.http_code_or_port = "000"
    ∧ (check_ocsp_status "t" "https://ocsp.eidpki.ee" "./ca.crt" false
        (.exn "boom" 1) "").1.http_code_or_port = "000" := by
  refine ⟨?_, ?_, ?_, ?_, ?_, ?_, ?_, ?_, ?_⟩
  · exact (c6_fail_implies_000_amended.1 "t" "ldap.eidpki.ee" 389 (.retCode 111 7)).trans (by decide)
  · exact (c6_fail_implies_000_amended.2.1 "t" "ldap.eidpki.ee" "ldap" (.timeout 10000)).trans (by decide)
  · exact c6_fail_implies_000_amended.2.2.1 "t" "u" "crl" (.netError "timed out") (.resp 200 "x") 3 (by decide)
  · exact c6_fail_implies_000_amended.2.2.2.1 "t" "https://ocsp.eidpki.ee" (.netError "timed out") (.resp 200 "x") 3 (by decide)
  · exact c6_fail_implies_000_amended.2.2.2.2.1 "t" "u" "crl" "20240101T000000Z" "EEGovCA2025.crl" (.readError "timed out") 9 [] (by decide)
  · exact (c6_fail_implies_000_amended.2.2.2.2.2.1 "t" "u" "crl").1
  · exact (c6_fail_implies_000_amended.2.2.2.2.2.1 "t" "u" "crl").2
  · exact c6_fail_implies_000_amended.2.2.2.2.2.2.1 "t" "https://ocsp.eidpki.ee" "./ca.crt" "0xAAA" "ocsp_status_by_serial" true (.timeout 5) "" 0 (by decide)
  · exact c6_fail_implies_000_amended.2.2.2.2.2.2.2 "t" "https://ocsp.eidpki.ee" "./ca.crt" false (.exn "boom" 1) "" (by decide)

/-- C1: for both availability probes (PKI resources and the OCSP
endpoint), under the `urllib` contract the ranged GET is attempted
exactly when the HEAD attempt came back with HTTP code 403 or 405, any
other HEAD failure is not retried, and the record says `ok` exactly when
the final HTTP code obtained is 200 or 206; in particular 405-to-HEAD
followed by 206-to-the-ranged-GET gives `status=ok` and
`code_or_port="206"`. -/
theorem c1_head_get_fallback_policy
    (timestamp url fileType : String) (head get : HttpOutcome) (d : Nat)
    (hw : head.wf = true) (gw : get.wf = true) :
    ((check_url_accessibility timestamp url fileType head get d).usedRangedGet = true ↔
      (head.obtainedCode = some 403 ∨ head.obtainedCode = some 405))
    ∧ ((check_url_accessibility timestamp url fileType head get d).record.status = "ok" ↔
      ∃ c, (check_url_accessibility timestamp url fileType head get d).finalCode = some c
        ∧ (c = 200 ∨ c = 206))
    ∧ ((check_ocsp_http timestamp url head get d).usedRangedGet = true ↔
      (head.obtainedCode = some 403 ∨ head.obtainedCode = some 405))
    ∧ ((check_ocsp_http timestamp url head get d).record.status = "ok" ↔
      ∃ c, (check_ocsp_http timestamp url head get d).finalCode = some c
        ∧ (c = 200 ∨ c = 206))
    ∧ (∀ m ct,
      (check_url_accessibility timestamp url fileType (.httpError 405 m) (.resp 206 ct) d).record.status = "ok"
      ∧ (check_url_accessibility timestamp url fileType (.httpError 405 m) (.resp 206 ct) d).record.http_code_or_port = "206"
      ∧ (check_ocsp_http timestamp url (.httpError 405 m) (.resp 206 ct) d).record.status = "ok"
      ∧ (check_ocsp_http timestamp url (.httpError 405 m) (.resp 206 ct) d).record.http_code_or_port = "206") := by
  have scenario : ∀ m ct : String,
      (check_url_accessibility timestamp url fileType (.httpError 405 m) (.resp 206 ct) d).record.status = "ok"
      ∧ (check_url_accessibility timestamp url fileType (.httpError 405 m) (.resp 206 ct) d).record.http_code_or_port = "206"
      ∧ (check_ocsp_http timestamp url (.httpError 405 m) (.resp 206 ct) d).record.status = "ok"
      ∧ (check_ocsp_http timestamp url (.httpError 405 m) (.resp 206 ct) d).record.http_code_or_port = "206" := by
    intro m ct
    refine ⟨?_, ?_, ?_, ?_⟩ <;> simp [check_url_accessibility, check_ocsp_http] <;> rfl
  cases head with
  | resp code ct =>
      have h1 : 200 ≤ code ∧ code ≤ 299 := by simpa [HttpOutcome.wf] using hw
      refine ⟨?_, ?_, ?_, ?_, scenario⟩
      · simp only [check_url_accessibility, HttpOutcome.obtainedCode]
        simp
        omega
      · by_cases hc : code = 200 ∨ code = 206 <;>
          simp [check_url_accessibility, hc]
      · simp only [check_ocsp_http, HttpOutcome.obtainedCode]
        simp
        omega
      · by_cases hc : code = 200 ∨ code = 206 <;>
          simp [check_ocsp_http, hc]
  | httpError code msg =>
      have h1 : 300 ≤ code := by simpa [HttpOutcome.wf] using hw
      by_cases hc : code = 403 ∨ code = 405
      · cases get with
        | resp gcode gct =>
            have h2 : 200 ≤ gcode ∧ gcode ≤ 299 := by simpa [HttpOutcome.wf] using gw
            refine ⟨?_, ?_, ?_, ?_, scenario⟩
            · simp [check_url_accessibility, HttpOutcome.obtainedCode, hc]
            · by_cases hg : gcode = 200 ∨ gcode = 206 <;>
                simp [check_url_accessibility, hc, hg]
            · simp [check_ocsp_http, HttpOutcome.obtainedCode, hc]
            · by_cases hg : gcode = 200 ∨ gcode = 206 <;>
                simp [check_ocsp_http, hc, hg]
        | httpError gcode gmsg =>
            have h2 : 300 ≤ gcode := by simpa [HttpOutcome.wf] using gw
            refine ⟨?_, ?_, ?_, ?_, scenario⟩
            · simp [check_url_accessibility, HttpOutcome.obtainedCode, hc]
            · simp [check_url_accessibility, hc]
              omega
            · simp [check_ocsp_http, HttpOutcome.obtainedCode, hc]
            · simp [check_ocsp_http, hc]
              omega
        | netError gmsg =>
            refine ⟨?_, ?_, ?_, ?_, scenario⟩
            · simp [check_url_accessibility, HttpOutcome.obtainedCode, hc]
            · simp [check_url_accessibility, hc]
            · simp [check_ocsp_http, HttpOutcome.obtainedCode, hc]
            · simp [check_ocsp_http, hc]
      · refine ⟨?_, ?_, ?_, ?_, scenario⟩
        · simp [check_url_accessibility, HttpOutcome.obtainedCode, hc]
        · simp [check_url_accessibility, hc]
          omega
        · simp [check_ocsp_http, HttpOutcome.obtainedCode, hc]
        · simp [check_ocsp_http, hc]
          omega
  | netError msg =>
      refine ⟨?_, ?_, ?_, ?_, scenario⟩
      · simp [check_url_accessibility, HttpOutcome.obtainedCode]
      · simp [check_url_accessibility]
      · simp [check_ocsp_http, HttpOutcome.obtainedCode]
      · simp [check_ocsp_http]

/-- C1 witness: the 405-to-HEAD / 206-to-ranged-GET server satisfies the
well-formedness of the HTTP client contract, the fallback fires, and the
probe reports `ok` with code `"206"`. -/
theorem c1_head_get_fallback_policy_witness :
    (check_url_accessibility "2024-01-01T00:00:00Z"
        "https://repository.eidpki.ee/static/doc.pdf" "pdf"
        (.httpError 405 "HTTP Error 405: Method Not Allowed")
        (.resp 206 "application/pdf") 12).usedRangedGet = true
    ∧ (check_url_accessibility "2024-01-01T00:00:00Z"
        "https://repository.eidpki.ee/static/doc.pdf" "pdf"
        (.httpError 405 "HTTP Error 405: Method Not Allowed")
        (.resp 206 "application/pdf") 12).record.status = "ok"
    ∧ (check_url_accessibility "2024-01-01T00:00:00Z"
        "https://repository.eidpki.ee/static/doc.pdf" "pdf"
        (.httpError 405 "HTTP Error 405: Method Not Allowed")
        (.resp 206 "application/pdf") 12).record.http_code_or_port = "206" := by
  have h := c1_head_get_fallback_policy "2024-01-01T00:00:00Z"
    "https://repository.eidpki.ee/static/doc.pdf" "pdf"
    (.httpError 405 "HTTP Error 405: Method Not Allowed")
    (.resp 206 "application/pdf") 12 (by decide) (by decide)
  refine ⟨h.1.mpr (Or.inr rfl), ?_, ?_⟩
  · exact (h.2.2.2.2 "HTTP Error 405: Method Not Allowed" "application/pdf").1
  · exact (h.2.2.2.2 "HTTP Error 405: Method Not Allowed" "application/pdf").2.1

/-- A line that matches the `Cert Status:` label sets the `status` local
to the stripped text after the label. -/
lemma parseLine_status_of_match (st : ParseState) (l : String)
    (h : pyContains l "Cert Status:" = true) :
    (parseLine st l).status = some (pyAfter l "Cert Status:") := by
  simp [parseLine, h]

/-- A line without the `Cert Status:` label leaves the `status` local
untouched, whichever other branch it takes. -/
lemma parseLine_status_of_no_match (st : ParseState) (l : String)
    (h : pyContains l "Cert Status:" = false) :
    (parseLine st l).status = st.status := by
  simp only [parseLine, h, Bool.false_eq_true, if_false]
  split
  · rfl
  · split <;> rfl

/-- A line taking the `Revocation Time:` branch (no status label, time
label present) sets the `revocationTime` local. -/
lemma parseLine_time_of_match (st : ParseState) (l : String)
    (h1 : pyContains l "Cert Status:" = false)
    (h2 : pyContains l "Revocation Time:" = true) :
    (parseLine st l).revocationTime = some (pyAfter l "Revocation Time:") := by
  simp [parseLine, h1, h2]

/-- A line not taking the `Revocation Time:` branch leaves the
`revocationTime` local untouched. -/
lemma parseLine_time_of_no_match (st : ParseState) (l : String)
    (h : pyContains l "Cert Status:" = true ∨ pyContains l "Revocation Time:" = false) :
    (parseLine st l).revocationTime = st.revocationTime := by
  rcases h with h | h
  · simp [parseLine, h]
  · simp only [parseLine, h, Bool.false_eq_true, if_false]
    split
    · rfl
    · split <;> rfl

/-- A line not taking the `Revocation Reason:` branch leaves the
`revocationReason` local untouched. -/
lemma parseLine_reason_of_no_match (st : ParseState) (l : String)
    (h : pyContains l "Cert Status:" = true ∨ pyContains l "Revocation Time:" = true
      ∨ pyContains l "Revocation Reason:" = false) :
    (parseLine st l).revocationReason = st.revocationReason := by
  rcases h with h | h | h
  · simp [parseLine, h]
  · by_cases hcs : pyContains l "Cert Status:" = true
    · simp [parseLine, hcs]
    · simp [parseLine, (by simpa using hcs : pyContains l "Cert Status:" = false), h]
  · simp only [parseLine, h, Bool.false_eq_true, if_false]
    split
    · rfl
    · split <;> rfl

/-- Folding the parsing loop over lines none of which takes the
`Revocation Reason:` branch leaves the `revocationReason` local
unchanged. -/
lemma foldl_reason_preserve (lines : List String) (st : ParseState)
    (h : ∀ l ∈ lines, pyContains l "Cert Status:" = true
      ∨ pyContains l "Revocation Time:" = true
      ∨ pyContains l "Revocation Reason:" = false) :
    (lines.foldl parseLine st).revocationReason = st.revocationReason := by
  induction lines generalizing st with
  | nil => rfl
  | cons l ls ih =>
      rw [List.foldl_cons, ih _ (fun x hx => h x (List.mem_cons_of_mem _ hx)),
        parseLine_reason_of_no_match st l (h l (List.mem_cons_self _ _))]

/-- A line taking the `Revocation Reason:` branch sets the
`revocationReason` local. -/
lemma parseLine_reason_of_match (st : ParseState) (l : String)
    (h1 : pyContains l "Cert Status:" = false)
    (h2 : pyContains l "Revocation Time:" = false)
    (h3 : pyContains l "Revocation Reason:" = true) :
    (parseLine st l).revocationReason = some (pyAfter l "Revocation Reason:") := by
  simp [parseLine, h1, h2, h3]

/-- Folding the parsing loop over lines none of which carries the
`Cert Status:` label leaves the `status` local unchanged. -/
lemma foldl_status_preserve (lines : List String) (st : ParseState)
    (h : ∀ l ∈ lines, pyContains l "Cert Status:" = false) :
    (lines.foldl parseLine st).status = st.status := by
  induction lines generalizing st with
  | nil => rfl
  | cons l ls ih =>
      rw [List.foldl_cons, ih _ (fun x hx => h x (List.mem_cons_of_mem _ hx)),
        parseLine_status_of_no_match st l (h l (List.mem_cons_self _ _))]

/-- Folding the parsing loop over lines none of which takes the
`Revocation Time:` branch leaves the `revocationTime` local unchanged. -/
lemma foldl_time_preserve (lines : List String) (st : ParseState)
    (h : ∀ l ∈ lines,
      pyContains l "Cert Status:" = true ∨ pyContains l "Revocation Time:" = false) :
    (lines.foldl parseLine st).revocationTime = st.revocationTime := by
  induction lines generalizing st with
  | nil => rfl
  | cons l ls ih =>
      rw [List.foldl_cons, ih _ (fun x hx => h x (List.mem_cons_of_mem _ hx)),
        parseLine_time_of_no_match st l (h l (List.mem_cons_self _ _))]

/-- If every `Cert Status:` line among `lines` extracts the value `v`
and at least one such line occurs, the loop ends with `status = v`
(the last matching line wins, and they all agree on `v`). -/
lemma foldl_status_set (lines : List String) (st : ParseState) (v : String)
    (hall : ∀ l ∈ lines, pyContains l "Cert Status:" = true → pyAfter l "Cert Status:" = v)
    (hex : ∃ l ∈ lines, pyContains l "Cert Status:" = true) :
    (lines.foldl parseLine st).status = some v := by
  induction lines generalizing st with
  | nil => simp at hex
  | cons l ls ih =>
      rw [List.foldl_cons]
      by_cases hls : ∃ x ∈ ls, pyContains x "Cert Status:" = true
      · exact ih (parseLine st l) (fun x hx hpx => hall x (List.mem_cons_of_mem _ hx) hpx) hls
      · have hl : pyContains l "Cert Status:" = true := by
          rcases hex with ⟨x, hx, hpx⟩
          rcases List.mem_cons.mp hx with rfl | hx2
          · exact hpx
          · exact absurd ⟨x, hx2, hpx⟩ hls
        have htail : ∀ x ∈ ls, pyContains x "Cert Status:" = false := by
          intro x hx
          by_contra hcon
          exact hls ⟨x, hx, by simpa using hcon⟩
        rw [foldl_status_preserve ls _ htail,
          parseLine_status_of_match st l hl, hall l (List.mem_cons_self _ _) hl]

/-- If every line taking the `Revocation Time:` branch extracts `v` and
at least one such line occurs, the loop ends with `revocationTime = v`. -/
lemma foldl_time_set (lines : List String) (st : ParseState) (v : String)
    (hall : ∀ l ∈ lines, pyContains l "Cert Status:" = false →
      pyContains l "Revocation Time:" = true → pyAfter l "Revocation Time:" = v)
    (hex : ∃ l ∈ lines, pyContains l "Cert Status:" = false
      ∧ pyContains l "Revocation Time:" = true) :
    (lines.foldl parseLine st).revocationTime = some v := by
  induction lines generalizing st with
  | nil => simp at hex
  | cons l ls ih =>
      rw [List.foldl_cons]
      by_cases hls : ∃ x ∈ ls, pyContains x "Cert Status:" = false
          ∧ pyContains x "Revocation Time:" = true
      · exact ih (parseLine st l) (fun x hx h1 h2 => hall x (List.mem_cons_of_mem _ hx) h1 h2) hls
      · have hl : pyContains l "Cert Status:" = false
            ∧ pyContains l "Revocation Time:" = true := by
          rcases hex with ⟨x, hx, hpx⟩
          rcases List.mem_cons.mp hx with rfl | hx2
          · exact hpx
          · exact absurd ⟨x, hx2, hpx⟩ hls
        have htail : ∀ x ∈ ls,
            pyContains x "Cert Status:" = true ∨ pyContains x "Revocation Time:" = false := by
          intro x hx
          by_cases hcs : pyContains x "Cert Status:" = true
          · exact Or.inl hcs
          · right
            by_contra hcon
            exact hls ⟨x, hx, by simpa using hcs, by simpa using hcon⟩
        rw [foldl_time_preserve ls _ htail,
          parseLine_time_of_match st l hl.1 hl.2, hall l (List.mem_cons_self _ _) hl.1 hl.2]

/-- If every line taking the `Revocation Reason:` branch extracts `v`
and at least one such line occurs, the loop ends with
`revocationReason = v`. -/
lemma foldl_reason_set (lines : List String) (st : ParseState) (v : String)
    (hall : ∀ l ∈ lines, pyContains l "Cert Status:" = false →
      pyContains l "Revocation Time:" = false →
      pyContains l "Revocation Reason:" = true → pyAfter l "Revocation Reason:" = v)
    (hex : ∃ l ∈ lines, pyContains l "Cert Status:" = false
      ∧ pyContains l "Revocation Time:" = false
      ∧ pyContains l "Revocation Reason:" = true) :
    (lines.foldl parseLine st).revocationReason = some v := by
  induction lines generalizing st with
  | nil => simp at hex
  | cons l ls ih =>
      rw [List.foldl_cons]
      by_cases hls : ∃ x ∈ ls, pyContains x "Cert Status:" = false
          ∧ pyContains x "Revocation Time:" = false
          ∧ pyContains x "Revocation Reason:" = true
      · exact ih (parseLine st l) (fun x hx h1 h2 h3 => hall x (List.mem_cons_of_mem _ hx) h1 h2 h3) hls
      · have hl : pyContains l "Cert Status:" = false
            ∧ pyContains l "Revocation Time:" = false
            ∧ pyContains l "Revocation Reason:" = true := by
          rcases hex with ⟨x, hx, hpx⟩
          rcases List.mem_cons.mp hx with rfl | hx2
          · exact hpx
          · exact absurd ⟨x, hx2, hpx⟩ hls
        have htail : ∀ x ∈ ls, pyContains x "Cert Status:" = true
            ∨ pyContains x "Revocation Time:" = true
            ∨ pyContains x "Revocation Reason:" = false := by
          intro x hx
          by_cases hcs : pyContains x "Cert Status:" = true
          · exact Or.inl hcs
          · by_cases hrt : pyContains x "Revocation Time:" = true
            · exact Or.inr (Or.inl hrt)
            · right; right
              by_contra hcon
              exact hls ⟨x, hx, by simpa using hcs, by simpa using hrt, by simpa using hcon⟩
        rw [foldl_reason_preserve ls _ htail,
          parseLine_reason_of_match st l hl.1 hl.2.1 hl.2.2,
          hall l (List.mem_cons_self _ _) hl.1 hl.2.1 hl.2.2]

/-- C8: when the `openssl ocsp` exchange completes with return code 0
and its textual response contains the lines `Cert Status: revoked`,
`Revocation Time: 20240101000000Z` and `Revocation Reason:
keyCompromise` (and no other line carries one of those labels), the
record has `status=ok` — revocation is a finding, not a probe failure —
and its note is
`"revoked, Revocation Time: 20240101000000Z, Reason: keyCompromise (serial: <serial>)"`. -/
theorem c8_revocation_is_finding_not_failure
    (timestamp url issuerCert serial stdout stderr respSha : String) (d dm : Nat)
    (hs1 : "Cert Status: revoked" ∈ pyLines stdout)
    (hs2 : ∀ l ∈ pyLines stdout, pyContains l "Cert Status:" = true →
      l = "Cert Status: revoked")
    (ht1 : "Revocation Time: 20240101000000Z" ∈ pyLines stdout)
    (ht2 : ∀ l ∈ pyLines stdout, pyContains l "Revocation Time:" = true →
      l = "Revocation Time: 20240101000000Z")
    (hr1 : "Revocation Reason: keyCompromise" ∈ pyLines stdout)
    (hr2 : ∀ l ∈ pyLines stdout, pyContains l "Revocation Reason:" = true →
      l = "Revocation Reason: keyCompromise") :
    (check_ocsp_by_serial timestamp url issuerCert serial "ocsp_status_by_serial"
        true (.ran 0 stdout stderr d) respSha dm).1.status = "ok"
    ∧ (check_ocsp_by_serial timestamp url issuerCert serial "ocsp_status_by_serial"
        true (.ran 0 stdout stderr d) respSha dm).1.note =
        "revoked, Revocation Time: 20240101000000Z, Reason: keyCompromise (serial: "
          ++ serial ++ ")"
    ∧ (check_ocsp_by_serial timestamp url issuerCert serial "ocsp_status_by_serial"
        true (.ran 0 stdout stderr d) respSha dm).2 = true := by
  have hst : ((pyLines stdout).foldl parseLine
      { status := none, revocationTime := none, revocationReason := none }).status
      = some "revoked" := by
    apply foldl_status_set
    · intro l hl hc
      rw [hs2 l hl hc]
      decide
    · exact ⟨_, hs1, by decide⟩
  have htt : ((pyLines stdout).foldl parseLine
      { status := none, revocationTime := none, revocationReason := none }).revocationTime
      = some "20240101000000Z" := by
    apply foldl_time_set
    · intro l hl h1 h2
      rw [ht2 l hl h2]
      decide
    · exact ⟨_, ht1, by decide, by decide⟩
  have hrr : ((pyLines stdout).foldl parseLine
      { status := none, revocationTime := none, revocationReason := none }).revocationReason
      = some "keyCompromise" := by
    apply foldl_reason_set
    · intro l hl h1 h2 h3
      rw [hr2 l hl h3]
      decide
    · refine ⟨_, hr1, by decide, by decide, by decide⟩
  have hparse : parse_ocsp_response stdout =
      "revoked, Revocation Time: 20240101000000Z, Reason: keyCompromise" := by
    simp only [parse_ocsp_response]
    rw [hst, htt, hrr]
    rfl
  refine ⟨rfl, ?_, rfl⟩
  show parse_ocsp_response stdout ++ " (serial: " ++ serial ++ ")" = _
  rw [hparse]
  rfl

/-- C8 witness: a concrete revoked-certificate response yields an `ok`
record with the composed note for serial `0x1A2B`. -/
theorem c8_revocation_is_finding_not_failure_witness :
    (check_ocsp_by_serial "2024-01-01T00:00:00Z" "https://ocsp.eidpki.ee"
        "./artifacts/crt/ESTEID2025.crt" "0x1A2B" "ocsp_status_by_serial" true
        (.ran 0
          "OCSP Response Data:\nCert Status: revoked\nRevocation Time: 20240101000000Z\nRevocation Reason: keyCompromise"
          "" 321) "ab12cd" 0).1.status = "ok"
    ∧ (check_ocsp_by_serial "2024-01-01T00:00:00Z" "https://ocsp.eidpki.ee"
        "./artifacts/crt/ESTEID2025.crt" "0x1A2B" "ocsp_status_by_serial" true
        (.ran 0
          "OCSP Response Data:\nCert Status: revoked\nRevocation Time: 20240101000000Z\nRevocation Reason: keyCompromise"
          "" 321) "ab12cd" 0).1.note =
        "revoked, Revocation Time: 20240101000000Z, Reason: keyCompromise (serial: 0x1A2B)"
    ∧ (check_ocsp_by_serial "2024-01-01T00:00:00Z" "https://ocsp.eidpki.ee"
        "./artifacts/crt/ESTEID2025.crt" "0x1A2B" "ocsp_status_by_serial" true
        (.ran 0
          "OCSP Response Data:\nCert Status: revoked\nRevocation Time: 20240101000000Z\nRevocation Reason: keyCompromise"
          "" 321) "ab12cd" 0).2 = true := by
  have h := c8_revocation_is_finding_not_failure "2024-01-01T00:00:00Z"
    "https://ocsp.eidpki.ee" "./artifacts/crt/ESTEID2025.crt" "0x1A2B"
    "OCSP Response Data:\nCert Status: revoked\nRevocation Time: 20240101000000Z\nRevocation Reason: keyCompromise"
    "" "ab12cd" 321 0 (by decide) (by decide) (by decide) (by decide)
    (by decide) (by decide)
  exact ⟨h.1, h.2.1, h.2.2⟩

/-- C10: the response parser reflects a `Revocation Reason:` line in its
result only when a `Revocation Time:` line is also present — with a
status line and a reason line but no time line, the bare status is
returned and the reason is silently dropped — and with no
`Cert Status:` line at all it returns `"unknown"` whatever revocation
lines appear. -/
theorem c10_reason_dropped_without_time :
    (∀ response, (∀ l ∈ pyLines response, pyContains l "Cert Status:" = false) →
      parse_ocsp_response response = "unknown")
    ∧ (∀ response v,
      (∀ l ∈ pyLines response, pyContains l "Cert Status:" = true →
        pyAfter l "Cert Status:" = v) →
      (∃ l ∈ pyLines response, pyContains l "Cert Status:" = true) →
      (∀ l ∈ pyLines response, pyContains l "Cert Status:" = true
        ∨ pyContains l "Revocation Time:" = false) →
      parse_ocsp_response response = v)
    ∧ parse_ocsp_response "Cert Status: revoked\nRevocation Reason: keyCompromise"
        = "revoked"
    ∧ parse_ocsp_response "Revocation Time: 20240101000000Z\nRevocation Reason: keyCompromise"
        = "unknown" := by
  refine ⟨?_, ?_, by decide, by decide⟩
  · intro response h
    have hst : ((pyLines response).foldl parseLine
        { status := none, revocationTime := none, revocationReason := none }).status
        = none := foldl_status_preserve _ _ h
    simp only [parse_ocsp_response]
    rw [hst]
  · intro response v hall hex hnotime
    have hst : ((pyLines response).foldl parseLine
        { status := none, revocationTime := none, revocationReason := none }).status
        = some v := foldl_status_set _ _ _ hall hex
    have htt : ((pyLines response).foldl parseLine
        { status := none, revocationTime := none, revocationReason := none }).revocationTime
        = none := foldl_time_preserve _ _ hnotime
    simp only [parse_ocsp_response]
    rw [hst, htt]
    rfl

/-- C10 witness: a response with a status line and a reason line but no
time line parses to the bare status, and a response with no status line
parses to `"unknown"`. -/
theorem c10_reason_dropped_without_time_witness :
    parse_ocsp_response "Cert Status: good\nRevocation Reason: keyCompromise" = "good"
    ∧ parse_ocsp_response "Response verify OK" = "unknown" := by
  constructor
  · exact c10_reason_dropped_without_time.2.1
      "Cert Status: good\nRevocation Reason: keyCompromise" "good"
      (by decide) (by decide) (by decide)
  · exact c10_reason_dropped_without_time.1 "Response verify OK" (by decide)

end PKIMon
